import Mathlib

/-!
Shallow embedding of the single-threaded TCP listener
(src/include/Server.hpp, src/src/Server.cpp).

The `Server` structure mirrors the private fields of the C++ `Server`
class.  The OS is modelled by an `Env` record that fixes the outcome of
each syscall: the file descriptor returned by `socket`, whether
`setsockopt` and `listen` succeed, which ports are free (`bind` succeeds
exactly on a free port), and the stream of values produced by `rand()`.
Console output (`std::print`, informational per the design) is not part
of the model; the observable socket-facing behaviour of the accept loop
and the per-client handler is recorded as a list of `NetAction`s.
-/

/-- State of the C++ `Server` object: the five data members plus the
`sin_port` field of `m_serverAddress` (the only part of the address
structure the code ever writes a port into; `memset` zeroes it in the
constructor). -/
structure Server where
  m_serverSocket : Int
  m_port : Int
  m_actualPort : Int
  m_backlog : Int
  m_running : Bool
  m_sinPort : Int
deriving Repr, DecidableEq

/-- Model of the operating system environment: outcomes of the syscalls
made during `start`, plus the `rand()` stream used by the bind-retry
loop. `portFree q = true` means a `bind` to port `q` succeeds. -/
structure Env where
  socketResult : Int
  setsockoptOk : Bool
  listenOk : Bool
  portFree : Int → Bool
  rand : Nat → Nat

/-- The value `rand() % 10` of the i-th call to `rand()` inside the
bind-retry loop, as an integer offset added to the requested port. -/
def Env.draw (env : Env) (i : Nat) : Int := ((env.rand i) % 10 : Nat)

/-- The constructor `Server::Server(port, backlog)`:
`m_serverSocket = -1`, `m_port = m_actualPort = port`,
`m_backlog = backlog`, `m_running = false`, address zeroed. -/
def Server.init (port backlog : Int) : Server :=
  { m_serverSocket := -1
    m_port := port
    m_actualPort := port
    m_backlog := backlog
    m_running := false
    m_sinPort := 0 }

/-- `Server::getPort`: returns `m_actualPort`. -/
def Server.getPort (s : Server) : Int := s.m_actualPort

/-- `Server::createSocket`: stores the fd returned by `socket` into
`m_serverSocket`; fails if it is negative, then fails if `setsockopt`
fails (in both cases returning `false` without closing anything). -/
def Server.createSocket (env : Env) (s : Server) : Bool × Server :=
  let s1 := { s with m_serverSocket := env.socketResult }
  if s1.m_serverSocket < 0 then (false, s1)
  else if env.setsockoptOk then (true, s1)
  else (false, s1)

/-- The `while (bind(...) < 0)` retry loop of `Server::bindSocket`.
Each invocation performs one `bind` attempt on the port currently in
`m_sinPort`.  On failure, if the retry budget (`fuel`, the C++ code's
`10 - attempts`) is exhausted the loop returns failure; otherwise it
picks the candidate `m_port + rand() % 10`, stores it in both
`m_actualPort` and `sin_port`, and retries.  The third component of the
result counts the `bind` calls made. -/
def Server.bindLoop (env : Env) : Server → Nat → Nat → Bool × Server × Nat
  | s, _, 0 =>
    if env.portFree s.m_sinPort then (true, s, 1) else (false, s, 1)
  | s, randIdx, Nat.succ fuel2 =>
    if env.portFree s.m_sinPort then (true, s, 1)
    else
      let cand : Int := s.m_port + env.draw randIdx
      let r := Server.bindLoop env
        { s with m_actualPort := cand, m_sinPort := cand } (randIdx + 1) fuel2
      (r.1, r.2.1, r.2.2 + 1)

/-- `Server::bindSocket`: sets `sin_port = htons(m_port)` and runs the
retry loop with a budget of 10 retries (the code's `attempts >= 10`
guard). -/
def Server.bindSocket (env : Env) (s : Server) : Bool × Server × Nat :=
  Server.bindLoop env { s with m_sinPort := s.m_port } 0 10

/-- `Server::listenSocket`: succeeds iff the `listen` syscall does. -/
def Server.listenSocket (env : Env) (s : Server) : Bool × Server :=
  if env.listenOk then (true, s) else (false, s)

/-- Result of `Server::start`, with two ghost observations: `fdOpen`
records whether the OS-level listening descriptor is still open when
`start` returns, and `bindAttempts` counts the `bind` calls made. -/
structure StartResult where
  ok : Bool
  state : Server
  fdOpen : Bool
  bindAttempts : Nat
deriving Repr, DecidableEq

/-- `Server::start`: `createSocket`, then `bindSocket`, then
`listenSocket`; on bind or listen failure the fd is closed (`close`)
but `m_serverSocket` is left holding the old descriptor value; on
`createSocket` failure nothing is closed; on full success
`m_running := true`. -/
def Server.start (env : Env) (s : Server) : StartResult :=
  let c := Server.createSocket env s
  if c.1 = false then
    { ok := false, state := c.2
      fdOpen := decide (0 ≤ c.2.m_serverSocket), bindAttempts := 0 }
  else
    let b := Server.bindSocket env c.2
    if b.1 = false then
      { ok := false, state := b.2.1, fdOpen := false, bindAttempts := b.2.2 }
    else
      let l := Server.listenSocket env b.2.1
      if l.1 = false then
        { ok := false, state := l.2, fdOpen := false, bindAttempts := b.2.2 }
      else
        { ok := true, state := { l.2 with m_running := true }
          fdOpen := true, bindAttempts := b.2.2 }

/-- `Server::stop`: sets `m_running = false`; if `m_serverSocket >= 0`
closes it and sets it to `-1`.  The boolean records whether a `close`
was performed by this call. -/
def Server.stop (s : Server) : Server × Bool :=
  let s1 := { s with m_running := false }
  if 0 ≤ s1.m_serverSocket then ({ s1 with m_serverSocket := -1 }, true)
  else (s1, false)

/-- The fixed HTTP response string built in `Server::handleClient`. -/
def httpResponse : String :=
  "HTTP/1.1 200 OK\r\nContent-Type: text/plain\r\nContent-Length: 13\r\n\r\nHello, World!"

/-- Observable socket-facing actions of the accept loop and the
per-client handler. -/
inductive NetAction where
  | send (data : String)
  | closeConn
  | logAcceptError
deriving Repr, DecidableEq

/-- `Server::handleClient`: sends the fixed response over the client
socket, then closes it.  The parameter carries the bytes the client
sent; the C++ body contains no `recv`, so the result cannot depend on
it. -/
def Server.handleClient (clientSent : List Nat) : List NetAction :=
  [NetAction.send httpResponse, NetAction.closeConn]

/-- One outcome of a blocking `accept` call in `Server::run`, as
delivered by the environment: a successful accept carrying the bytes
that client will send, a failure with the server still running, or a
failure caused by a concurrent `stop()` (which flips `m_running` and
closes the listening socket before `accept` returns). -/
inductive AcceptEvent where
  | ok (clientSent : List Nat)
  | fail
  | stopFail
deriving Repr, DecidableEq

/-- The `while (m_running)` accept loop of `Server::run`, consuming a
finite trace of accept outcomes.  A failed accept logs an error only if
`m_running` is still true, then continues; a concurrent `stop()`
(modelled by `AcceptEvent.stopFail`) updates the state via
`Server.stop`, the accept failure is suppressed, and the loop exits at
the next `while` check. -/
def Server.runLoop : Server → List AcceptEvent → List NetAction × Server
  | s, [] => ([], s)
  | s, ev :: rest =>
    if s.m_running then
      match ev with
      | AcceptEvent.ok bytes =>
        let r := Server.runLoop s rest
        (Server.handleClient bytes ++ r.1, r.2)
      | AcceptEvent.fail =>
        let r := Server.runLoop s rest
        (NetAction.logAcceptError :: r.1, r.2)
      | AcceptEvent.stopFail =>
        Server.runLoop (Server.stop s).1 rest
    else ([], s)

/-- `Server::run` (the informational banner print is not modelled). -/
def Server.run (s : Server) (events : List AcceptEvent) :
    List NetAction × Server :=
  Server.runLoop s events


/- Unfolding equations and helper lemmas -/

/-- Unfolding equation for the retry loop with zero retries left. -/
theorem bindLoop_zero (env : Env) (s : Server) (i : Nat) :
    Server.bindLoop env s i 0 =
      if env.portFree s.m_sinPort then (true, s, 1) else (false, s, 1) :=
  rfl

/-- Unfolding equation for the retry loop with at least one retry left. -/
theorem bindLoop_succ (env : Env) (s : Server) (i n : Nat) :
    Server.bindLoop env s i (n + 1) =
      if env.portFree s.m_sinPort then (true, s, 1)
      else
        ((Server.bindLoop env { s with
            m_actualPort := s.m_port + env.draw i
            m_sinPort := s.m_port + env.draw i } (i + 1) n).1,
         (Server.bindLoop env { s with
            m_actualPort := s.m_port + env.draw i
            m_sinPort := s.m_port + env.draw i } (i + 1) n).2.1,
         (Server.bindLoop env { s with
            m_actualPort := s.m_port + env.draw i
            m_sinPort := s.m_port + env.draw i } (i + 1) n).2.2 + 1) :=
  rfl

/-- The bind-retry loop never touches `m_port`, `m_backlog`,
`m_running` or `m_serverSocket`. -/
theorem bindLoop_frame (env : Env) (s : Server) (i fuel : Nat) :
    (Server.bindLoop env s i fuel).2.1.m_port = s.m_port ∧
    (Server.bindLoop env s i fuel).2.1.m_backlog = s.m_backlog ∧
    (Server.bindLoop env s i fuel).2.1.m_running = s.m_running ∧
    (Server.bindLoop env s i fuel).2.1.m_serverSocket = s.m_serverSocket := by
  induction fuel generalizing s i with
  | zero =>
    rw [bindLoop_zero]
    split <;> simp
  | succ n ih =>
    rw [bindLoop_succ]
    split
    · simp
    · simpa using ih { s with
        m_actualPort := s.m_port + env.draw i
        m_sinPort := s.m_port + env.draw i } (i + 1)

/-- Each random offset drawn by the retry loop lies in `0..9`. -/
theorem draw_bounds (env : Env) (i : Nat) :
    0 ≤ env.draw i ∧ env.draw i ≤ 9 := by
  unfold Env.draw
  have h : env.rand i % 10 < 10 := Nat.mod_lt _ (by omega)
  omega

/-- If every `bind` the loop can attempt fails, the loop fails and
performs exactly `fuel + 1` bind calls. -/
theorem bindLoop_all_occupied (env : Env) (s : Server) (i fuel : Nat)
    (h0 : env.portFree s.m_sinPort = false)
    (h : ∀ j, j < fuel → env.portFree (s.m_port + env.draw (i + j)) = false) :
    (Server.bindLoop env s i fuel).1 = false ∧
    (Server.bindLoop env s i fuel).2.2 = fuel + 1 := by
  induction fuel generalizing s i with
  | zero =>
    rw [bindLoop_zero]
    simp [h0]
  | succ n ih =>
    rw [bindLoop_succ]
    simp only [h0, Bool.false_eq_true, if_false]
    have hc : env.portFree (s.m_port + env.draw i) = false := by
      have := h 0 (Nat.succ_pos n)
      simpa using this
    have hrest : ∀ j, j < n →
        env.portFree (s.m_port + env.draw (i + 1 + j)) = false := by
      intro j hj
      have hx := h (j + 1) (by omega)
      have harith : i + (j + 1) = i + 1 + j := by omega
      rwa [harith] at hx
    have hrec := ih { s with
        m_actualPort := s.m_port + env.draw i
        m_sinPort := s.m_port + env.draw i } (i + 1) hc hrest
    exact ⟨hrec.1, by simpa using hrec.2⟩

/-- A bind attempt on a free port succeeds immediately, leaving the
state unchanged, whatever the remaining retry budget. -/
theorem bindLoop_hit (env : Env) (s : Server) (i fuel : Nat)
    (h : env.portFree s.m_sinPort = true) :
    Server.bindLoop env s i fuel = (true, s, 1) := by
  cases fuel with
  | zero => rw [bindLoop_zero]; simp [h]
  | succ n => rw [bindLoop_succ]; simp [h]

/-- If the current port is occupied but one of the next `fuel` random
candidates is free, the loop succeeds and the final `m_actualPort` is
the requested port plus an offset in `0..9`. -/
theorem bindLoop_finds_free (env : Env) (s : Server) (i fuel : Nat)
    (h0 : env.portFree s.m_sinPort = false)
    (hfree : ∃ j, j < fuel ∧ env.portFree (s.m_port + env.draw (i + j)) = true) :
    (Server.bindLoop env s i fuel).1 = true ∧
    ∃ r : Int, 0 ≤ r ∧ r ≤ 9 ∧
      (Server.bindLoop env s i fuel).2.1.m_actualPort = s.m_port + r := by
  induction fuel generalizing s i with
  | zero =>
    obtain ⟨j, hj, _⟩ := hfree
    omega
  | succ n ih =>
    rw [bindLoop_succ]
    simp only [h0, Bool.false_eq_true, if_false]
    by_cases hc : env.portFree (s.m_port + env.draw i) = true
    · rw [bindLoop_hit env _ (i + 1) n (by simpa using hc)]
      refine ⟨rfl, env.draw i, (draw_bounds env i).1, (draw_bounds env i).2, rfl⟩
    · have hc2 : env.portFree (s.m_port + env.draw i) = false := by
        simpa using hc
      have hfree2 : ∃ j, j < n ∧
          env.portFree (s.m_port + env.draw (i + 1 + j)) = true := by
        obtain ⟨j, hj, hjf⟩ := hfree
        match j, hj, hjf with
        | 0, _, hjf => exact absurd (by simpa using hjf) (by simp [hc2])
        | j + 1, hj, hjf =>
          refine ⟨j, by omega, ?_⟩
          have harith : i + (j + 1) = i + 1 + j := by omega
          rwa [harith] at hjf
      have hrec := ih { s with
          m_actualPort := s.m_port + env.draw i
          m_sinPort := s.m_port + env.draw i } (i + 1) hc2 hfree2
      exact ⟨hrec.1, by simpa using hrec.2⟩

/-- A server whose running flag is false makes the accept loop exit at
once, with no actions. -/
theorem runLoop_not_running (s : Server) (events : List AcceptEvent)
    (h : s.m_running = false) :
    Server.runLoop s events = ([], s) := by
  cases events with
  | nil => rfl
  | cons ev rest => simp [Server.runLoop, h]

/-- Stopping always clears the running flag. -/
theorem stop_not_running (s : Server) :
    (Server.stop s).1.m_running = false := by
  simp only [Server.stop]
  split <;> rfl

/-- Stopping never touches `m_port` or `m_backlog`. -/
theorem stop_frame (s : Server) :
    (Server.stop s).1.m_port = s.m_port ∧
    (Server.stop s).1.m_backlog = s.m_backlog := by
  simp only [Server.stop]
  split <;> exact ⟨rfl, rfl⟩

/-- The state produced by `createSocket` is the input with the new fd
stored, on every path. -/
theorem createSocket_state (env : Env) (s : Server) :
    (Server.createSocket env s).2 =
      { s with m_serverSocket := env.socketResult } := by
  simp only [Server.createSocket]
  split
  · rfl
  · split <;> rfl

/-- `createSocket` succeeds when `socket` returns a non-negative fd and
`setsockopt` succeeds. -/
theorem createSocket_ok (env : Env) (s : Server)
    (h1 : 0 ≤ env.socketResult) (h2 : env.setsockoptOk = true) :
    (Server.createSocket env s).1 = true := by
  have hneg : ¬ ({ s with m_serverSocket := env.socketResult }.m_serverSocket < 0) := by
    simp
    omega
  simp only [Server.createSocket]
  rw [if_neg hneg, if_pos h2]

/-- The state produced by `listenSocket` is its input, on every path. -/
theorem listenSocket_state (env : Env) (s : Server) :
    (Server.listenSocket env s).2 = s := by
  simp only [Server.listenSocket]
  split <;> rfl

/-- The accept loop never touches `m_port` or `m_backlog`. -/
theorem runLoop_frame (s : Server) (events : List AcceptEvent) :
    (Server.runLoop s events).2.m_port = s.m_port ∧
    (Server.runLoop s events).2.m_backlog = s.m_backlog := by
  induction events generalizing s with
  | nil => exact ⟨rfl, rfl⟩
  | cons ev rest ih =>
    by_cases h : s.m_running = true
    · cases ev with
      | ok bytes => simpa [Server.runLoop, h] using ih s
      | fail => simpa [Server.runLoop, h] using ih s
      | stopFail =>
        have hrec := ih (Server.stop s).1
        have hst := stop_frame s
        simp only [Server.runLoop, h, if_true]
        exact ⟨hrec.1.trans hst.1, hrec.2.trans hst.2⟩
    · have hf : s.m_running = false := by simpa using h
      rw [runLoop_not_running s (ev :: rest) hf]
      exact ⟨rfl, rfl⟩

/-- `bindSocket` never touches `m_port`, `m_backlog`, `m_running` or
`m_serverSocket`. -/
theorem bindSocket_frame (env : Env) (s : Server) :
    (Server.bindSocket env s).2.1.m_port = s.m_port ∧
    (Server.bindSocket env s).2.1.m_backlog = s.m_backlog ∧
    (Server.bindSocket env s).2.1.m_running = s.m_running ∧
    (Server.bindSocket env s).2.1.m_serverSocket = s.m_serverSocket := by
  have h := bindLoop_frame env { s with m_sinPort := s.m_port } 0 10
  exact ⟨h.1, h.2.1, h.2.2.1, h.2.2.2⟩

/-- `start` never touches `m_port` or `m_backlog`. -/
theorem start_frame (env : Env) (s : Server) :
    (Server.start env s).state.m_port = s.m_port ∧
    (Server.start env s).state.m_backlog = s.m_backlog := by
  have hb := bindSocket_frame env (Server.createSocket env s).2
  simp only [Server.start]
  split
  · rw [createSocket_state env s]
    exact ⟨rfl, rfl⟩
  · split
    · refine ⟨?_, ?_⟩
      · rw [hb.1, createSocket_state env s]
      · rw [hb.2.1, createSocket_state env s]
    · split
      · rw [listenSocket_state]
        refine ⟨?_, ?_⟩
        · rw [hb.1, createSocket_state env s]
        · rw [hb.2.1, createSocket_state env s]
      · refine ⟨?_, ?_⟩
        · show (Server.listenSocket env
              (Server.bindSocket env (Server.createSocket env s).2).2.1).2.m_port = s.m_port
          rw [listenSocket_state, hb.1, createSocket_state env s]
        · show (Server.listenSocket env
              (Server.bindSocket env (Server.createSocket env s).2).2.1).2.m_backlog = s.m_backlog
          rw [listenSocket_state, hb.2.1, createSocket_state env s]

/- Claim theorems -/

/-- Claim C3: for every accepted connection, the handler sends exactly
the fixed HTTP response byte sequence over the accepted socket and then
closes it, independent of the bytes the client sent (the handler never
reads them). -/
theorem c3_handle_client_response (clientSent : List Nat) :
    Server.handleClient clientSent =
      [NetAction.send "HTTP/1.1 200 OK\r\nContent-Type: text/plain\r\nContent-Length: 13\r\n\r\nHello, World!",
       NetAction.closeConn] :=
  rfl

/-- Claim C6: `stop` sets the running flag to false, closes the socket
exactly when the handle is non-negative (invalidating it to `-1`), and
is idempotent: a second `stop` performs no close and leaves the state
unchanged, whatever state (including one left by a failed `start`) it
is applied to. -/
theorem c6_stop_idempotent (s : Server) :
    (Server.stop s).1.m_running = false ∧
    ((Server.stop s).2 = true ↔ 0 ≤ s.m_serverSocket) ∧
    ((Server.stop s).2 = true → (Server.stop s).1.m_serverSocket = -1) ∧
    Server.stop (Server.stop s).1 = ((Server.stop s).1, false) := by
  by_cases h : 0 ≤ s.m_serverSocket <;>
    simp [Server.stop, h]

/-- Claim C7: in the accept loop, an accept failure while the server is
still running is reported (`logAcceptError`) and the loop continues
with the next accept; an accept failure caused by a concurrent `stop`
is suppressed (no log entry) and the loop exits immediately, whatever
events would have followed. -/
theorem c7_accept_failure_handling (s : Server) (rest : List AcceptEvent)
    (h : s.m_running = true) :
    (Server.runLoop s (AcceptEvent.fail :: rest)).1 =
      NetAction.logAcceptError :: (Server.runLoop s rest).1 ∧
    Server.runLoop s (AcceptEvent.stopFail :: rest) =
      ([], (Server.stop s).1) := by
  constructor
  · simp [Server.runLoop, h]
  · simp only [Server.runLoop, h, if_true]
    exact runLoop_not_running _ rest (stop_not_running s)

/-- Witness for claim C7 at a concrete running server and a one-event
trace. -/
theorem c7_witness :
    (Server.runLoop
        { m_serverSocket := 5, m_port := 8080, m_actualPort := 8080,
          m_backlog := 10, m_running := true, m_sinPort := 8080 }
        [AcceptEvent.fail]).1 =
      NetAction.logAcceptError ::
        (Server.runLoop
          { m_serverSocket := 5, m_port := 8080, m_actualPort := 8080,
            m_backlog := 10, m_running := true, m_sinPort := 8080 } []).1 ∧
    Server.runLoop
        { m_serverSocket := 5, m_port := 8080, m_actualPort := 8080,
          m_backlog := 10, m_running := true, m_sinPort := 8080 }
        [AcceptEvent.stopFail] =
      ([], (Server.stop
        { m_serverSocket := 5, m_port := 8080, m_actualPort := 8080,
          m_backlog := 10, m_running := true, m_sinPort := 8080 }).1) :=
  c7_accept_failure_handling
    { m_serverSocket := 5, m_port := 8080, m_actualPort := 8080,
      m_backlog := 10, m_running := true, m_sinPort := 8080 } [] rfl

/-- Claim C8: calling `run` after `stop` is a no-op: the running flag
is false, so the loop body never executes and `run` returns with no
connection accepted or handled and no error logged, for every event
trace the environment might offer. -/
theorem c8_run_after_stop_noop (s : Server) (events : List AcceptEvent) :
    Server.run (Server.stop s).1 events = ([], (Server.stop s).1) :=
  runLoop_not_running (Server.stop s).1 events (stop_not_running s)

/-- Claim C9: a freshly constructed server has `getPort` equal to the
requested port, a negative (invalid) socket handle, and is not
running. -/
theorem c9_fresh_server_state (p b : Int) :
    Server.getPort (Server.init p b) = p ∧
    (Server.init p b).m_serverSocket < 0 ∧
    (Server.init p b).m_running = false :=
  ⟨rfl, by norm_num [Server.init], rfl⟩

/-- Claim C10: no operation mutates the requested-port field or the
backlog field after construction: `start`, the accept loop of `run`,
and `stop` all preserve `m_port` and `m_backlog` (the per-connection
handler touches no server state at all). -/
theorem c10_frame_port_backlog (env : Env) (s : Server)
    (events : List AcceptEvent) :
    ((Server.start env s).state.m_port = s.m_port ∧
     (Server.start env s).state.m_backlog = s.m_backlog) ∧
    ((Server.runLoop s events).2.m_port = s.m_port ∧
     (Server.runLoop s events).2.m_backlog = s.m_backlog) ∧
    ((Server.stop s).1.m_port = s.m_port ∧
     (Server.stop s).1.m_backlog = s.m_backlog) :=
  ⟨start_frame env s, runLoop_frame s events, stop_frame s⟩

/-- When socket creation and `setsockopt` succeed, `bindSocket` runs on
the constructed state with the new fd stored, starting from the fresh
server's fields. -/
theorem bindSocket_after_create (env : Env) (p b : Int) :
    Server.bindSocket env (Server.createSocket env (Server.init p b)).2 =
      Server.bindLoop env
        { m_serverSocket := env.socketResult, m_port := p, m_actualPort := p,
          m_backlog := b, m_running := false, m_sinPort := p } 0 10 := by
  rw [createSocket_state]
  rfl

/-- Outcome of `start` when socket setup succeeds but `bindSocket`
fails: failure is reported and the bind-attempt count is surfaced. -/
theorem start_bind_fail_eq (env : Env) (s : Server)
    (h1 : 0 ≤ env.socketResult) (h2 : env.setsockoptOk = true)
    (hb : (Server.bindSocket env (Server.createSocket env s).2).1 = false) :
    (Server.start env s).ok = false ∧
    (Server.start env s).bindAttempts =
      (Server.bindSocket env (Server.createSocket env s).2).2.2 := by
  have hcok := createSocket_ok env s h1 h2
  simp only [Server.start, hcok, hb]
  simp

/-- Outcome of `start` when socket setup, `bindSocket` and `listen` all
succeed. -/
theorem start_ok_eq (env : Env) (s : Server)
    (h1 : 0 ≤ env.socketResult) (h2 : env.setsockoptOk = true)
    (h3 : env.listenOk = true)
    (hb : (Server.bindSocket env (Server.createSocket env s).2).1 = true) :
    (Server.start env s).ok = true ∧
    (Server.start env s).state.m_actualPort =
      (Server.bindSocket env (Server.createSocket env s).2).2.1.m_actualPort ∧
    (Server.start env s).bindAttempts =
      (Server.bindSocket env (Server.createSocket env s).2).2.2 := by
  have hcok := createSocket_ok env s h1 h2
  simp only [Server.start, hcok, hb, Server.listenSocket, h3]
  simp

/-- Claim C4: when the requested port is free (and socket creation,
option setting and listen succeed), `start` succeeds and `getPort`
returns exactly the requested port: the first bind attempt is made on
the requested port, so no retry changes `m_actualPort`. -/
theorem c4_free_port_start_succeeds (p b : Int) (env : Env)
    (h1 : 0 ≤ env.socketResult) (h2 : env.setsockoptOk = true)
    (h3 : env.listenOk = true) (h4 : env.portFree p = true) :
    (Server.start env (Server.init p b)).ok = true ∧
    Server.getPort (Server.start env (Server.init p b)).state = p := by
  have hhit : Server.bindLoop env
      { m_serverSocket := env.socketResult, m_port := p, m_actualPort := p,
        m_backlog := b, m_running := false, m_sinPort := p } 0 10 =
      (true,
       { m_serverSocket := env.socketResult, m_port := p, m_actualPort := p,
         m_backlog := b, m_running := false, m_sinPort := p }, 1) :=
    bindLoop_hit env _ 0 10 h4
  have hb : (Server.bindSocket env
      (Server.createSocket env (Server.init p b)).2).1 = true := by
    rw [bindSocket_after_create, hhit]
  have hs := start_ok_eq env (Server.init p b) h1 h2 h3 hb
  refine ⟨hs.1, ?_⟩
  show (Server.start env (Server.init p b)).state.m_actualPort = p
  rw [hs.2.1, bindSocket_after_create, hhit]

/-- Witness for claim C4: requested port 8080 free, all syscalls
succeed. -/
theorem c4_witness :
    (Server.start
      { socketResult := 3, setsockoptOk := true, listenOk := true,
        portFree := fun q => decide (q = 8080), rand := fun _ => 0 }
      (Server.init 8080 10)).ok = true ∧
    Server.getPort (Server.start
      { socketResult := 3, setsockoptOk := true, listenOk := true,
        portFree := fun q => decide (q = 8080), rand := fun _ => 0 }
      (Server.init 8080 10)).state = 8080 :=
  c4_free_port_start_succeeds 8080 10
    { socketResult := 3, setsockoptOk := true, listenOk := true,
      portFree := fun q => decide (q = 8080), rand := fun _ => 0 }
    (by norm_num) rfl rfl (by decide)

/-- Claim C5 (amended): if the requested port is occupied but one of
the ten random retry draws yields a free candidate port, `start`
succeeds and `getPort` lies in the range requested..requested+9.  (The
unamended claim, quantifying only over the port configuration, fails:
see the counterexample, where a free port exists in P+1..P+9 but every
random draw selects the occupied port P.) -/
theorem c5_amended_random_retry_success (p b : Int) (env : Env)
    (h1 : 0 ≤ env.socketResult) (h2 : env.setsockoptOk = true)
    (h3 : env.listenOk = true)
    (hocc : env.portFree p = false)
    (hfree : ∃ j, j < 10 ∧ env.portFree (p + env.draw j) = true) :
    (Server.start env (Server.init p b)).ok = true ∧
    p ≤ Server.getPort (Server.start env (Server.init p b)).state ∧
    Server.getPort (Server.start env (Server.init p b)).state ≤ p + 9 := by
  have hfind := bindLoop_finds_free env
    { m_serverSocket := env.socketResult, m_port := p, m_actualPort := p,
      m_backlog := b, m_running := false, m_sinPort := p } 0 10
    hocc (by simpa using hfree)
  have hb : (Server.bindSocket env
      (Server.createSocket env (Server.init p b)).2).1 = true := by
    rw [bindSocket_after_create]
    exact hfind.1
  have hs := start_ok_eq env (Server.init p b) h1 h2 h3 hb
  obtain ⟨r, hr0, hr9, hract⟩ := hfind.2
  refine ⟨hs.1, ?_, ?_⟩
  · show p ≤ (Server.start env (Server.init p b)).state.m_actualPort
    rw [hs.2.1, bindSocket_after_create, hract]
    show p ≤ p + r
    omega
  · show (Server.start env (Server.init p b)).state.m_actualPort ≤ p + 9
    rw [hs.2.1, bindSocket_after_create, hract]
    show p + r ≤ p + 9
    omega

/-- Counterexample to claim C5 as stated: port 8080 is occupied and
port 8081 (in 8081..8089) is free, yet `start` fails, because every
random draw is 0 and so every retry rebinds the occupied port 8080. -/
theorem c5_counterexample :
    ((fun env : Env =>
        env.portFree 8080 = false ∧
        env.portFree 8081 = true ∧
        (Server.start env (Server.init 8080 10)).ok = false)
      { socketResult := 3, setsockoptOk := true, listenOk := true,
        portFree := fun q => decide (q = 8081), rand := fun _ => 0 }) := by
  decide

/-- Witness for claim C5 (amended): port 8080 occupied, every draw is
1, so the first retry binds the free port 8081. -/
theorem c5_witness :
    (Server.start
      { socketResult := 3, setsockoptOk := true, listenOk := true,
        portFree := fun q => decide (q = 8081), rand := fun _ => 1 }
      (Server.init 8080 10)).ok = true ∧
    8080 ≤ Server.getPort (Server.start
      { socketResult := 3, setsockoptOk := true, listenOk := true,
        portFree := fun q => decide (q = 8081), rand := fun _ => 1 }
      (Server.init 8080 10)).state ∧
    Server.getPort (Server.start
      { socketResult := 3, setsockoptOk := true, listenOk := true,
        portFree := fun q => decide (q = 8081), rand := fun _ => 1 }
      (Server.init 8080 10)).state ≤ 8080 + 9 :=
  c5_amended_random_retry_success 8080 10
    { socketResult := 3, setsockoptOk := true, listenOk := true,
      portFree := fun q => decide (q = 8081), rand := fun _ => 1 }
    (by norm_num) rfl rfl (by decide) ⟨0, by norm_num, by decide⟩

/-- Claim C1 (amended): if the requested port and every port up to nine
above it are occupied (and socket creation and option setting succeed),
`start` fails after exactly 11 bind attempts: the initial attempt on
the requested port plus the 10 retries, each retry selecting its
candidate as requestedPort + random(0..9).  (The unamended claim says
exactly 10 bind attempts; see the counterexample.) -/
theorem c1_amended_eleven_bind_attempts (p b : Int) (env : Env)
    (h1 : 0 ≤ env.socketResult) (h2 : env.setsockoptOk = true)
    (hocc : ∀ q : Int, p ≤ q → q ≤ p + 9 → env.portFree q = false) :
    (Server.start env (Server.init p b)).ok = false ∧
    (Server.start env (Server.init p b)).bindAttempts = 11 := by
  have hall := bindLoop_all_occupied env
    { m_serverSocket := env.socketResult, m_port := p, m_actualPort := p,
      m_backlog := b, m_running := false, m_sinPort := p } 0 10
    (hocc p (le_refl p) (by omega))
    (by
      intro j hj
      have hd := draw_bounds env (0 + j)
      show env.portFree (p + env.draw (0 + j)) = false
      exact hocc _ (by omega) (by omega))
  have hb : (Server.bindSocket env
      (Server.createSocket env (Server.init p b)).2).1 = false := by
    rw [bindSocket_after_create]
    exact hall.1
  have hs := start_bind_fail_eq env (Server.init p b) h1 h2 hb
  refine ⟨hs.1, ?_⟩
  rw [hs.2, bindSocket_after_create]
  exact hall.2

/-- Counterexample to claim C1 as stated: with every port occupied and
all syscalls otherwise succeeding, `start` on port 8080 fails after 11
bind attempts, not 10. -/
theorem c1_counterexample :
    (Server.start
      { socketResult := 3, setsockoptOk := true, listenOk := true,
        portFree := fun _ => false, rand := fun _ => 0 }
      (Server.init 8080 10)).ok = false ∧
    (Server.start
      { socketResult := 3, setsockoptOk := true, listenOk := true,
        portFree := fun _ => false, rand := fun _ => 0 }
      (Server.init 8080 10)).bindAttempts = 11 ∧
    ¬ (Server.start
      { socketResult := 3, setsockoptOk := true, listenOk := true,
        portFree := fun _ => false, rand := fun _ => 0 }
      (Server.init 8080 10)).bindAttempts = 10 := by
  decide

/-- Witness for claim C1 (amended), with ports 8080..8089 all occupied
and a varying random stream. -/
theorem c1_witness :
    (Server.start
      { socketResult := 4, setsockoptOk := true, listenOk := true,
        portFree := fun _ => false, rand := fun i => i }
      (Server.init 8080 16)).ok = false ∧
    (Server.start
      { socketResult := 4, setsockoptOk := true, listenOk := true,
        portFree := fun _ => false, rand := fun i => i }
      (Server.init 8080 16)).bindAttempts = 11 :=
  c1_amended_eleven_bind_attempts 8080 16
    { socketResult := 4, setsockoptOk := true, listenOk := true,
      portFree := fun _ => false, rand := fun i => i }
    (by norm_num) rfl (fun q _ _ => rfl)

/-- Claim C2 is violated by the code (code bug): first, after a
`start` that fails in `bindSocket` the fd is closed but
`m_serverSocket` still holds the old non-negative descriptor, so the
stated invariant (handle non-negative iff bound/listening/running)
fails in the resulting non-running state — and a later `stop` or the
destructor will close that stale descriptor again.  Second, when
`setsockopt` fails, `start` returns failure without closing the
freshly created socket at all, leaving partial state open. -/
theorem c2_code_bug_socket_leak :
    ((Server.start
        { socketResult := 3, setsockoptOk := true, listenOk := true,
          portFree := fun _ => false, rand := fun _ => 0 }
        (Server.init 8080 10)).ok = false ∧
     (Server.start
        { socketResult := 3, setsockoptOk := true, listenOk := true,
          portFree := fun _ => false, rand := fun _ => 0 }
        (Server.init 8080 10)).state.m_running = false ∧
     0 ≤ (Server.start
        { socketResult := 3, setsockoptOk := true, listenOk := true,
          portFree := fun _ => false, rand := fun _ => 0 }
        (Server.init 8080 10)).state.m_serverSocket) ∧
    ((Server.start
        { socketResult := 3, setsockoptOk := false, listenOk := true,
          portFree := fun _ => true, rand := fun _ => 0 }
        (Server.init 8080 10)).ok = false ∧
     (Server.start
        { socketResult := 3, setsockoptOk := false, listenOk := true,
          portFree := fun _ => true, rand := fun _ => 0 }
        (Server.init 8080 10)).fdOpen = true) := by
  decide
